import Mathlib

set_option autoImplicit false

namespace OpenClaw

/-!
Shallow embedding of the openclaw-backend control plane, used to settle the
frozen claims about its specification.  Definitions are transcribed from the
JavaScript sources: `src/backend/src/services/webhookHandler.js`,
`src/backend/src/config/razorpay.js`, `src/backend/src/utils/logger.js`,
`src/backend/src/models/workspace.js` (workspace and subscription models),
the workspace/payment/proxy routers and the container manager service.
-/

/-! ### JavaScript-flavoured string primitives

These model the JS string operations the backend relies on:
`toLowerCase` (on ASCII data), `includes`, and `replace` with a string
pattern and empty replacement, which removes only the first occurrence. -/

/-- ASCII lowercasing of one character, as `toLowerCase` acts on the
header names and log keys appearing in this code base. -/
def charLower (c : Char) : Char :=
  if 65 ≤ c.toNat ∧ c.toNat ≤ 90 then Char.ofNat (c.toNat + 32) else c

/-- ASCII lowercasing of a string (JS `s.toLowerCase()`). -/
def lowerStr (s : String) : String := ⟨s.data.map charLower⟩

/-- Does `pat` occur as a contiguous run inside the list? (JS `includes`.) -/
def listContainsSub (pat : List Char) : List Char → Bool
  | [] => pat.isEmpty
  | c :: t => pat.isPrefixOf (c :: t) || listContainsSub pat t

/-- JS `s.includes(sub)`. -/
def strContains (s sub : String) : Bool := listContainsSub sub.data s.data

/-- Remove the first occurrence of `pat` (JS `s.replace(pat, '')` with a
string pattern).  A non-occurring or empty pattern leaves the list intact. -/
def removeFirstList (pat : List Char) : List Char → List Char
  | [] => []
  | c :: t =>
    if !pat.isEmpty && pat.isPrefixOf (c :: t) then (c :: t).drop pat.length
    else c :: removeFirstList pat t

/-- JS `s.replace(pat, '')` with a string (not regex) pattern. -/
def jsReplaceEmpty (s pat : String) : String := ⟨removeFirstList pat.data s.data⟩

/-- `crypto.timingSafeEqual` wrapped as in `config/razorpay.js`: the
length-mismatch exception is caught and turned into `false`. -/
def timingSafeEq (a b : String) : Bool :=
  if a.length = b.length then a == b else false

/-! ### Subscription state machine (`services/webhookHandler.js`) -/

inductive SubStatus where
  | pending
  | active
  | past_due
  | cancelled
  | expired
deriving DecidableEq, Repr

/-- The `VALID_TRANSITIONS` table of `webhookHandler.js`. -/
def VALID_TRANSITIONS : SubStatus → List SubStatus
  | .pending => [.active]
  | .active => [.past_due, .cancelled, .expired]
  | .past_due => [.active, .cancelled, .expired]
  | .cancelled => []
  | .expired => []

/-- `isValidTransition(fromState, toState)`. -/
def isValidTransition (fromState toState : SubStatus) : Bool :=
  (VALID_TRANSITIONS fromState).contains toState

/-- Terminal subscription states. -/
def isTerminal (s : SubStatus) : Bool := s == .cancelled || s == .expired

/-- A row of the `subscriptions` table (the columns the handlers touch). -/
structure Subscription where
  id : Nat
  razorpayId : String
  userId : String
  planId : String
  status : SubStatus
  periodStart : Int
  periodEnd : Int
  cancelledAt : Option Int
deriving DecidableEq, Repr

/-- A row of the append-only `payment_events` ledger. -/
structure EventRow where
  subscriptionId : Option Nat
  eventType : String
  razorpayPaymentId : Option String
  razorpayEventId : String
deriving DecidableEq, Repr

/-- The payment-side database state: subscriptions plus the event ledger. -/
structure PayDB where
  subs : List Subscription
  events : List EventRow
deriving DecidableEq, Repr

/-- A webhook `entity` (subscription or payment) as the handlers read it. -/
structure Entity where
  id : String
  subscription_id : Option String
  current_start : Int
  current_end : Int
deriving DecidableEq, Repr

/-- A parsed webhook payload: the event name and the optional
`payload.subscription.entity` / `payload.payment.entity` objects. -/
structure WebhookBody where
  event : String
  subscriptionEntity : Option Entity
  paymentEntity : Option Entity
deriving DecidableEq, Repr

/-- An inbound webhook request: signature header, raw body bytes, and the
result of `JSON.parse` on the raw body (`none` = invalid JSON). -/
structure WebhookReq where
  signature : Option String
  rawBody : String
  parsedBody : Option WebhookBody
deriving DecidableEq, Repr

/-- An HTTP response of the webhook route: status code and body marker. -/
structure WebhookResp where
  status : Nat
  tag : String
deriving DecidableEq, Repr

/-- `getAndLockSubscription`: `SELECT * FROM subscriptions WHERE
razorpay_subscription_id = $1 FOR UPDATE`, first row or null. -/
def getAndLockSubscription (razorpaySubscriptionId : String) (st : PayDB) :
    Option Subscription :=
  st.subs.find? (fun s => s.razorpayId == razorpaySubscriptionId)

/-- `insertPaymentEvent`: append one row to `payment_events`. -/
def insertPaymentEvent (subscriptionId : Option Nat) (eventType : String)
    (eventId : String) (razorpayPaymentId : Option String) (st : PayDB) : PayDB :=
  { st with events := st.events ++ [⟨subscriptionId, eventType, razorpayPaymentId, eventId⟩] }

/-- `UPDATE subscriptions SET ... WHERE id = $n`. -/
def updateSub (sid : Nat) (f : Subscription → Subscription) (st : PayDB) : PayDB :=
  { st with subs := st.subs.map (fun s => if s.id == sid then f s else s) }

/-- `handleSubscriptionActivated`: pending → active, period dates from the
event; on a disallowed transition the event is recorded but no state changes;
a missing subscription is a silent no-op (no ledger row). -/
def handleSubscriptionActivated (entity : Entity) (eventId : String) (st : PayDB) : PayDB :=
  match getAndLockSubscription entity.id st with
  | none => st
  | some subscription =>
    if !isValidTransition subscription.status .active then
      insertPaymentEvent (some subscription.id) "subscription.activated" eventId none st
    else
      insertPaymentEvent (some subscription.id) "subscription.activated" eventId none
        (updateSub subscription.id
          (fun s => { s with status := .active,
                             periodStart := entity.current_start * 1000,
                             periodEnd := entity.current_end * 1000 }) st)

/-- `handleSubscriptionCharged`: refresh period dates (no status check),
record the payment id. -/
def handleSubscriptionCharged (entity : Entity) (body : WebhookBody)
    (eventId : String) (st : PayDB) : PayDB :=
  match getAndLockSubscription entity.id st with
  | none => st
  | some subscription =>
    insertPaymentEvent (some subscription.id) "subscription.charged" eventId
      (body.paymentEntity.map (fun p => p.id))
      (updateSub subscription.id
        (fun s => { s with periodStart := entity.current_start * 1000,
                           periodEnd := entity.current_end * 1000 }) st)

/-- `handleSubscriptionCompleted`: → expired when allowed, else record only. -/
def handleSubscriptionCompleted (entity : Entity) (eventId : String) (st : PayDB) : PayDB :=
  match getAndLockSubscription entity.id st with
  | none => st
  | some subscription =>
    if !isValidTransition subscription.status .expired then
      insertPaymentEvent (some subscription.id) "subscription.completed" eventId none st
    else
      insertPaymentEvent (some subscription.id) "subscription.completed" eventId none
        (updateSub subscription.id (fun s => { s with status := .expired }) st)

/-- `handleSubscriptionCancelled`: unconditionally sets `cancelled` and
`cancelled_at` — the code performs no transition check here. -/
def handleSubscriptionCancelled (entity : Entity) (eventId : String) (now : Int)
    (st : PayDB) : PayDB :=
  match getAndLockSubscription entity.id st with
  | none => st
  | some subscription =>
    insertPaymentEvent (some subscription.id) "subscription.cancelled" eventId none
      (updateSub subscription.id
        (fun s => { s with status := .cancelled, cancelledAt := some now }) st)

/-- `handleSubscriptionPending`: active → past_due when allowed. -/
def handleSubscriptionPending (entity : Entity) (eventId : String) (st : PayDB) : PayDB :=
  match getAndLockSubscription entity.id st with
  | none => st
  | some subscription =>
    if !isValidTransition subscription.status .past_due then
      insertPaymentEvent (some subscription.id) "subscription.pending" eventId none st
    else
      insertPaymentEvent (some subscription.id) "subscription.pending" eventId none
        (updateSub subscription.id (fun s => { s with status := .past_due }) st)

/-- `handleSubscriptionHalted`: active → past_due when allowed. -/
def handleSubscriptionHalted (entity : Entity) (eventId : String) (st : PayDB) : PayDB :=
  match getAndLockSubscription entity.id st with
  | none => st
  | some subscription =>
    if !isValidTransition subscription.status .past_due then
      insertPaymentEvent (some subscription.id) "subscription.halted" eventId none st
    else
      insertPaymentEvent (some subscription.id) "subscription.halted" eventId none
        (updateSub subscription.id (fun s => { s with status := .past_due }) st)

/-- `handleSubscriptionResumed`: past_due → active when allowed. -/
def handleSubscriptionResumed (entity : Entity) (eventId : String) (st : PayDB) : PayDB :=
  match getAndLockSubscription entity.id st with
  | none => st
  | some subscription =>
    if !isValidTransition subscription.status .active then
      insertPaymentEvent (some subscription.id) "subscription.resumed" eventId none st
    else
      insertPaymentEvent (some subscription.id) "subscription.resumed" eventId none
        (updateSub subscription.id (fun s => { s with status := .active }) st)

/-- `handleSubscriptionPaused`: active → past_due when allowed. -/
def handleSubscriptionPaused (entity : Entity) (eventId : String) (st : PayDB) : PayDB :=
  match getAndLockSubscription entity.id st with
  | none => st
  | some subscription =>
    if !isValidTransition subscription.status .past_due then
      insertPaymentEvent (some subscription.id) "subscription.paused" eventId none st
    else
      insertPaymentEvent (some subscription.id) "subscription.paused" eventId none
        (updateSub subscription.id (fun s => { s with status := .past_due }) st)

/-- `handlePaymentFailed`: look up by `entity.subscription_id`, record only. -/
def handlePaymentFailed (entity : Entity) (eventId : String) (st : PayDB) : PayDB :=
  match entity.subscription_id with
  | none => st
  | some rid =>
    match getAndLockSubscription rid st with
    | none => st
    | some subscription =>
      insertPaymentEvent (some subscription.id) "payment.failed" eventId
        (some entity.id) st

/-- `handleWebhookEvent`: dispatch on the event type; unknown events are
appended to the ledger with a null subscription id. -/
def handleWebhookEvent (eventType : String) (entity : Entity) (body : WebhookBody)
    (eventId : String) (now : Int) (st : PayDB) : PayDB :=
  if eventType == "subscription.activated" then handleSubscriptionActivated entity eventId st
  else if eventType == "subscription.charged" then handleSubscriptionCharged entity body eventId st
  else if eventType == "subscription.completed" then handleSubscriptionCompleted entity eventId st
  else if eventType == "subscription.cancelled" then handleSubscriptionCancelled entity eventId now st
  else if eventType == "subscription.pending" then handleSubscriptionPending entity eventId st
  else if eventType == "subscription.halted" then handleSubscriptionHalted entity eventId st
  else if eventType == "subscription.resumed" then handleSubscriptionResumed entity eventId st
  else if eventType == "subscription.paused" then handleSubscriptionPaused entity eventId st
  else if eventType == "payment.failed" then handlePaymentFailed entity eventId st
  else insertPaymentEvent none eventType eventId none st

/-- Event-id extraction of the webhook route:
`payload.payment?.entity?.id || payload.subscription?.entity?.id ||
  event_Date.now()`. -/
def eventIdOf (body : WebhookBody) (nowMs : Int) : String :=
  let c1 := (body.paymentEntity.map (fun e => e.id)).getD ""
  if c1 != "" then c1
  else
    let c2 := (body.subscriptionEntity.map (fun e => e.id)).getD ""
    if c2 != "" then c2
    else "event_" ++ toString nowMs

/-- Entity selection of `processWebhookEvent`:
`payload.subscription?.entity || payload.payment?.entity`. -/
def entityOf (body : WebhookBody) : Option Entity :=
  body.subscriptionEntity.orElse (fun _ => body.paymentEntity)

/-- `entity.id || entity.subscription_id` (used only as a null guard). -/
def entityRid (e : Entity) : String :=
  if e.id != "" then e.id else e.subscription_id.getD ""

/-- Does the ledger already hold a row with this event id?
(`SELECT id FROM payment_events WHERE razorpay_event_id = $1`.) -/
def hasEventRow (st : PayDB) (eventId : String) : Bool :=
  st.events.any (fun r => r.razorpayEventId == eventId)

/-- The `POST /api/webhooks/razorpay` handler: verify the signature over the
raw body, parse, run the idempotency pre-check, then process the event inside
a transaction.  `hmacHex secret body` stands for the hex HMAC-SHA256. -/
def postWebhook (hmacHex : String → String → String) (webhookSecret : String)
    (nowMs now : Int) (st : PayDB) (req : WebhookReq) : WebhookResp × PayDB :=
  match req.signature with
  | none => (⟨401, "Signature missing"⟩, st)
  | some signature =>
    if !timingSafeEq signature (hmacHex webhookSecret req.rawBody) then
      (⟨401, "Invalid signature"⟩, st)
    else
      match req.parsedBody with
      | none => (⟨400, "Invalid JSON"⟩, st)
      | some body =>
        let eventId := eventIdOf body nowMs
        if hasEventRow st eventId then (⟨200, "already_processed"⟩, st)
        else
          match entityOf body with
          | none => (⟨200, "success"⟩, st)
          | some entity =>
            if entityRid entity == "" then (⟨200, "success"⟩, st)
            else (⟨200, "success"⟩, handleWebhookEvent body.event entity body eventId now st)

/-- Sequential processing of a list of webhook requests. -/
def processAll (hmacHex : String → String → String) (webhookSecret : String)
    (nowMs now : Int) (st : PayDB) (reqs : List WebhookReq) : PayDB :=
  reqs.foldl (fun s r => (postWebhook hmacHex webhookSecret nowMs now s r).2) st

/-! ### Container engine adapter (`services/containerManager.js`) -/

/-- Result of a daemon call: `.ok`, or the HTTP status code carried by the
thrown error (`error.statusCode`). -/
abbrev DaemonResult := Except Nat Unit

/-- The catch block of `startContainer`. -/
def startContainerCatch (statusCode : Nat) : Except String Bool :=
  if statusCode == 304 then .ok true
  else if statusCode == 404 then .error "Container not found"
  else .error "Failed to start container"

/-- `startContainer`: inspect the container, then start it; any thrown
status code funnels into the shared catch block. -/
def startContainer (inspectResult startResult : DaemonResult) : Except String Bool :=
  match inspectResult with
  | .error e => startContainerCatch e
  | .ok _ =>
    match startResult with
    | .error e => startContainerCatch e
    | .ok _ => .ok true

/-- The catch block of `stopContainer`. -/
def stopContainerCatch (statusCode : Nat) : Except String Bool :=
  if statusCode == 304 then .ok true
  else if statusCode == 404 then .error "Container not found"
  else .error "Failed to stop container"

/-- `stopContainer`: stop with graceful timeout; 304 means already stopped. -/
def stopContainer (stopResult : DaemonResult) : Except String Bool :=
  match stopResult with
  | .error e => stopContainerCatch e
  | .ok _ => .ok true

/-- `removeContainer`: a 404 (absent container) is treated as success. -/
def removeContainer (removeResult : DaemonResult) : Except String Bool :=
  match removeResult with
  | .ok _ => .ok true
  | .error e => if e == 404 then .ok true else .error "Failed to remove container"

/-! ### Workspace records and entitlement
(`models/workspace.js`, `models/subscription.js`) -/

inductive WsStatus where
  | stopped
  | creating
  | running
  | error
deriving DecidableEq, Repr

/-- A row of the `workspaces` table (the columns the routes touch). -/
structure Workspace where
  id : String
  userId : String
  name : String
  apiKey : String
  containerId : Option String
  containerStatus : WsStatus
  lastStartedAt : Option Int
deriving DecidableEq, Repr

/-- The application database: subscriptions plus workspaces. -/
structure AppDB where
  subs : List Subscription
  workspaces : List Workspace
deriving DecidableEq, Repr

/-- `findActiveByUserId`: `user_id = $1 AND status = active AND
current_period_end > NOW()`, newest first, limit 1. -/
def findActiveByUserId (db : AppDB) (userId : String) (now : Int) : Option Subscription :=
  (db.subs.filter (fun s =>
    s.userId == userId && s.status == .active && decide (now < s.periodEnd))).head?

/-- `hasActive(userId)`: the subscription found above is non-null. -/
def hasActive (db : AppDB) (userId : String) (now : Int) : Bool :=
  (findActiveByUserId db userId now).isSome

/-- `isOwner`: a workspace row with this id and user id exists. -/
def isOwner (db : AppDB) (workspaceId userId : String) : Bool :=
  db.workspaces.any (fun w => w.id == workspaceId && w.userId == userId)

/-- `workspaceModel.findById`. -/
def findWorkspaceById (db : AppDB) (workspaceId : String) : Option Workspace :=
  db.workspaces.find? (fun w => w.id == workspaceId)

/-- `workspaceModel.findByApiKey` (unique column lookup). -/
def findByApiKey (db : AppDB) (apiKey : String) : Option Workspace :=
  db.workspaces.find? (fun w => w.apiKey == apiKey)

/-- `workspaceModel.updateStatus`: sets `container_status`, and
`last_started_at` when the new status is `running`. -/
def wsUpdateStatus (db : AppDB) (workspaceId : String) (status : WsStatus) (now : Int) : AppDB :=
  { db with workspaces := db.workspaces.map (fun w =>
      if w.id == workspaceId then
        { w with containerStatus := status,
                 lastStartedAt := if status == .running then some now else w.lastStartedAt }
      else w) }

/-- `workspaceModel.updateContainer`: sets `container_id` and status. -/
def wsUpdateContainer (db : AppDB) (workspaceId containerId : String)
    (status : WsStatus) : AppDB :=
  { db with workspaces := db.workspaces.map (fun w =>
      if w.id == workspaceId then
        { w with containerId := some containerId, containerStatus := status }
      else w) }

/-- A container-engine call issued by a route handler. -/
inductive EngineOp where
  | create (workspaceId : String)
  | start (containerId : String)
  | stop (containerId : String)
  | remove (containerId : String)
deriving DecidableEq, Repr

/-- What the container engine answers to each call. -/
structure EngineOracle where
  createResult : String → Except String String
  startResult : String → Except String Bool
  stopResult : String → Except String Bool

/-- An HTTP response of a workspace route. -/
structure RouteResp where
  status : Nat
  tag : String
deriving DecidableEq, Repr

/-- `POST /api/workspaces/:id/start`: `checkOwnership`, `requireSubscription`,
then create the container if absent and start it.  Returns the response, the
database afterwards, and the engine calls performed. -/
def processStart (eng : EngineOracle) (now : Int) (db : AppDB) (userId workspaceId : String) :
    RouteResp × AppDB × List EngineOp :=
  if !isOwner db workspaceId userId then (⟨403, "Access denied"⟩, db, [])
  else if !hasActive db userId now then (⟨403, "Subscription required"⟩, db, [])
  else
    match findWorkspaceById db workspaceId with
    | none => (⟨404, "Not found"⟩, db, [])
    | some w =>
      if w.containerStatus == .running then (⟨200, "Workspace already running"⟩, db, [])
      else
        match w.containerId with
        | none =>
          let db1 := wsUpdateStatus db workspaceId .creating now
          match eng.createResult workspaceId with
          | .error _ =>
            (⟨500, "EngineError"⟩, wsUpdateStatus db1 workspaceId .error now, [.create workspaceId])
          | .ok cid =>
            let db2 := wsUpdateContainer db1 workspaceId cid .stopped
            match eng.startResult cid with
            | .error _ =>
              (⟨500, "EngineError"⟩, wsUpdateStatus db2 workspaceId .error now,
                [.create workspaceId, .start cid])
            | .ok _ =>
              (⟨200, "Workspace started successfully"⟩, wsUpdateStatus db2 workspaceId .running now,
                [.create workspaceId, .start cid])
        | some cid =>
          match eng.startResult cid with
          | .error _ => (⟨500, "EngineError"⟩, wsUpdateStatus db workspaceId .error now, [.start cid])
          | .ok _ =>
            (⟨200, "Workspace started successfully"⟩, wsUpdateStatus db workspaceId .running now,
              [.start cid])

/-- `POST /api/workspaces/:id/stop`: ownership and subscription gates, then
the handler; a missing `container_id` is answered 400 before the
already-stopped check. -/
def processStop (eng : EngineOracle) (now : Int) (db : AppDB) (userId workspaceId : String) :
    RouteResp × AppDB × List EngineOp :=
  if !isOwner db workspaceId userId then (⟨403, "Access denied"⟩, db, [])
  else if !hasActive db userId now then (⟨403, "Subscription required"⟩, db, [])
  else
    match findWorkspaceById db workspaceId with
    | none => (⟨404, "Not found"⟩, db, [])
    | some w =>
      match w.containerId with
      | none => (⟨400, "Workspace has no container to stop"⟩, db, [])
      | some cid =>
        if w.containerStatus == .stopped then (⟨200, "Workspace already stopped"⟩, db, [])
        else
          match eng.stopResult cid with
          | .error _ => (⟨500, "Failed to stop"⟩, db, [.stop cid])
          | .ok _ =>
            (⟨200, "Workspace stopped successfully"⟩, wsUpdateStatus db workspaceId .stopped now,
              [.stop cid])

/-- `POST /api/workspaces`: `requireSubscription`, the per-user cap, the
`(user_id, name)` uniqueness constraint, then the insert in state `stopped`
with a fresh api key. -/
def processCreate (now : Int) (db : AppDB) (userId name : String) (maxWorkspaces : Nat)
    (newId newApiKey : String) : RouteResp × AppDB :=
  if !hasActive db userId now then (⟨403, "Subscription required"⟩, db)
  else if maxWorkspaces ≤ (db.workspaces.filter (fun w => w.userId == userId)).length then
    (⟨400, "Limit reached"⟩, db)
  else if db.workspaces.any (fun w => w.userId == userId && w.name == name) then
    (⟨409, "Conflict"⟩, db)
  else
    (⟨201, "Workspace created successfully"⟩,
      { db with workspaces :=
          db.workspaces ++ [⟨newId, userId, name, newApiKey, none, .stopped, none⟩] })

/-! ### Authenticated reverse proxy (proxy router) -/

/-- Node lowercases incoming header names; `srcReq.headers` is keyed by the
lowercased names. -/
def nodeHeaders (clientHeaders : List (String × String)) : List (String × String) :=
  clientHeaders.map (fun p => (lowerStr p.1, p.2))

/-- Proxy request options: headers copied from the source request plus the
streamed body. -/
structure ProxyReqOpts where
  headers : List (String × String)
  body : String
deriving DecidableEq, Repr

/-- `proxyReqOptDecorator`: `delete proxyReqOpts.headers[x-api-key]`. -/
def proxyReqOptDecorator (opts : ProxyReqOpts) : ProxyReqOpts :=
  { opts with headers := opts.headers.filter (fun p => p.1 != "x-api-key") }

/-- The request as it reaches the upstream container. -/
def forwardedRequest (clientHeaders : List (String × String)) (body : String) : ProxyReqOpts :=
  proxyReqOptDecorator ⟨nodeHeaders clientHeaders, body⟩

/-- `proxyReqPathResolver`:
`req.originalUrl.replace(prefixOf workspaceId, empty) falling back to the root path`. -/
def proxyReqPathResolver (workspaceId originalUrl : String) : String :=
  let newPath := jsReplaceEmpty originalUrl ("/api/proxy/" ++ workspaceId)
  if newPath == "" then "/" else newPath

/-- `authenticateApiKey` followed by per-request target construction: resolve
the workspace by the credential header, check entitlement and runtime state,
build the upstream target from the internal IP of the container, and rewrite the
path.  Returns the (target, forwarded path) pair or the error response. -/
def proxyDispatch (db : AppDB) (containerIp : String → Option String)
    (openclawPort : String) (now : Int) (apiKey : Option String)
    (originalUrl : String) : Except RouteResp (String × String) :=
  match apiKey with
  | none => .error ⟨401, "Authentication required"⟩
  | some key =>
    match findByApiKey db key with
    | none => .error ⟨401, "Authentication failed"⟩
    | some w =>
      if !hasActive db w.userId now then .error ⟨403, "Subscription required"⟩
      else if w.containerStatus != .running then .error ⟨503, "Service unavailable"⟩
      else
        match w.containerId with
        | none => .error ⟨503, "Service unavailable"⟩
        | some cid =>
          match containerIp cid with
          | none => .error ⟨503, "Service unavailable"⟩
          | some ip =>
            .ok ("http://" ++ ip ++ ":" ++ openclawPort, proxyReqPathResolver w.id originalUrl)

/-! ### JS values and the secret-redacting logger (`utils/logger.js`) -/

mutual
inductive JsVal where
  | undefined
  | null
  | str (s : String)
  | num (n : Int)
  | bool (b : Bool)
  | arr (xs : JsArr)
  | obj (fs : JsObj)
inductive JsArr where
  | nil
  | cons (hd : JsVal) (tl : JsArr)
inductive JsObj where
  | nil
  | cons (key : String) (val : JsVal) (tl : JsObj)
end

/-- The `SECRET_FIELDS` blacklist of `utils/logger.js`, verbatim. -/
def SECRET_FIELDS : List String :=
  ["password", "password_hash", "api_key", "apiKey", "apikey", "authorization",
   "token", "jwt", "secret", "x-api-key", "razorpay_key_secret",
   "RAZORPAY_KEY_SECRET", "JWT_SECRET"]

/-- `SECRET_FIELDS.some(field => lowerKey.includes(field.toLowerCase()))`. -/
def isSecretKey (key : String) : Bool :=
  SECRET_FIELDS.any (fun f => strContains (lowerStr key) (lowerStr f))

mutual
/-- `redactSecrets`: non-objects pass through, arrays map, and each object
field is replaced by the sentinel when its key matches the blacklist, or
recursed into when its value is a non-null object. -/
def redactSecrets : JsVal → JsVal
  | .undefined => .undefined
  | .null => .null
  | .str s => .str s
  | .num n => .num n
  | .bool b => .bool b
  | .arr xs => .arr (redactArr xs)
  | .obj fs => .obj (redactObj fs)

def redactArr : JsArr → JsArr
  | .nil => .nil
  | .cons hd tl => .cons (redactSecrets hd) (redactArr tl)

def redactObj : JsObj → JsObj
  | .nil => .nil
  | .cons key val tl =>
    if isSecretKey key then .cons key (.str "[REDACTED]") (redactObj tl)
    else
      match val with
      | .arr xs => .cons key (.arr (redactArr xs)) (redactObj tl)
      | .obj fs => .cons key (.obj (redactObj fs)) (redactObj tl)
      | v => .cons key v (redactObj tl)
end

/-- Is this value the redaction sentinel? -/
def isSentinel : JsVal → Bool
  | .str s => s == "[REDACTED]"
  | _ => false

mutual
/-- Every field at any depth whose key matches the blacklist carries the
sentinel. -/
def fullyRedacted : JsVal → Bool
  | .arr xs => fullyRedactedArr xs
  | .obj fs => fullyRedactedObj fs
  | _ => true

def fullyRedactedArr : JsArr → Bool
  | .nil => true
  | .cons hd tl => fullyRedacted hd && fullyRedactedArr tl

def fullyRedactedObj : JsObj → Bool
  | .nil => true
  | .cons key val tl =>
    (if isSecretKey key then isSentinel val else fullyRedacted val) && fullyRedactedObj tl
end

/-- JS property read: `undefined` on anything but an object with the key. -/
def objLookup : JsObj → String → JsVal
  | .nil, _ => .undefined
  | .cons key val tl, k => if key == k then val else objLookup tl k

/-- `value[key]` — named property access; arrays yield `undefined`. -/
def jsGetProp : JsVal → String → JsVal
  | .obj fs, k => objLookup fs k
  | _, _ => .undefined

/-- JS truthiness. -/
def jsTruthy : JsVal → Bool
  | .undefined => false
  | .null => false
  | .str s => s != ""
  | .num n => n != 0
  | .bool b => b
  | .arr _ => true
  | .obj _ => true

/-- JS strict equality against a string literal. -/
def jsStrictEqStr (v : JsVal) (s : String) : Bool :=
  match v with
  | .str t => t == s
  | _ => false

/-! ### GET /api/payments/subscription (payment routes) -/

/-- The `status` column as stored in the database. -/
def statusNameOf : SubStatus → String
  | .pending => "pending"
  | .active => "active"
  | .past_due => "past_due"
  | .cancelled => "cancelled"
  | .expired => "expired"

/-- One `subscriptions` row as the JS database driver returns it. -/
def subRowJs (s : Subscription) : JsVal :=
  .obj (.cons "id" (.num (Int.ofNat s.id))
    (.cons "status" (.str (statusNameOf s.status))
    (.cons "plan_id" (.str s.planId)
    (.cons "current_period_start" (.num s.periodStart)
    (.cons "current_period_end" (.num s.periodEnd) .nil)))))

def listToJsArr : List JsVal → JsArr
  | [] => .nil
  | x :: t => .cons x (listToJsArr t)

/-- `subscriptionModel.findByUserId`: returns `result.rows` — an array of
row objects, never a single row. -/
def findByUserIdJs (subs : List Subscription) (userId : String) : JsVal :=
  .arr (listToJsArr ((subs.filter (fun s => s.userId == userId)).map subRowJs))

/-- `Math.ceil((periodEnd - now) / 86400000)` over integer milliseconds. -/
def jsCeilDays (periodEnd now : Int) : Int :=
  -(Int.ediv (-(periodEnd - now)) 86400000)

/-- Extract a numeric value (only reached on `.num` in this model). -/
def jsNumOf : JsVal → Int
  | .num n => n
  | _ => 0

/-- An HTTP response of the subscription route: status plus JSON body. -/
structure SubRouteResp where
  httpStatus : Nat
  body : JsVal

/-- The `GET /api/payments/subscription` handler, transcribed with the JS
semantics of its emptiness check (`if (!subscription)`) and property reads
on the value `subscriptionModel.findByUserId` actually returns. -/
def getSubscriptionRoute (subs : List Subscription) (userId : String) (now : Int) :
    SubRouteResp :=
  let subscription := findByUserIdJs subs userId
  if !jsTruthy subscription then
    ⟨404, .obj (.cons "error" (.str "No subscription") .nil)⟩
  else
    ⟨200, .obj (
      .cons "status" (jsGetProp subscription "status") (
      .cons "plan" (jsGetProp subscription "plan_id") (
      .cons "current_period_start" (jsGetProp subscription "current_period_start") (
      .cons "current_period_end" (jsGetProp subscription "current_period_end") (
      .cons "workspace_limit" (.num 5) (
      .cons "cancelled_at" (jsGetProp subscription "cancelled_at") (
      .cons "is_active" (.bool (jsStrictEqStr (jsGetProp subscription "status") "active")) (
      .cons "days_remaining"
        (if jsTruthy (jsGetProp subscription "current_period_end")
         then .num (jsCeilDays (jsNumOf (jsGetProp subscription "current_period_end")) now)
         else .num 0)
      .nil))))))))⟩

/-! ### Auxiliary predicates for reasoning about the handlers -/

/-- The primary-key constraint of the `subscriptions` table: ids are unique. -/
@[reducible] def uniqueIds (subs : List Subscription) : Prop :=
  subs.Pairwise (fun a b => a.id ≠ b.id)

/-- How one handler step may change the subscription rows: either not at
all, or by an `UPDATE ... WHERE id = sub.id` keyed on a row `sub` found in
the table, whose update function preserves the id and either preserves the
status, sets it to `cancelled`, or sets it to a target that is a valid
transition out of the status of the found row. -/
@[reducible] def SubsChange (old new : List Subscription) : Prop :=
  new = old ∨
  ∃ (sub : Subscription) (f : Subscription → Subscription), sub ∈ old ∧
    new = old.map (fun s => if s.id == sub.id then f s else s) ∧
    (∀ s, (f s).id = s.id) ∧
    ((∀ s, (f s).status = s.status) ∨ (∀ s, (f s).status = SubStatus.cancelled) ∨
      (∃ t, isValidTransition sub.status t = true ∧ ∀ s, (f s).status = t))

/-! ### Helper lemmas: shape of one webhook-handler step -/


theorem handleSubscriptionActivated_shape (e : Entity) (eid : String) (st : PayDB) :
    handleSubscriptionActivated e eid st = st ∨
    ∃ subs2 row, row.razorpayEventId = eid ∧
      handleSubscriptionActivated e eid st = ⟨subs2, st.events ++ [row]⟩ := by
  unfold handleSubscriptionActivated
  split
  · exact Or.inl rfl
  · split
    · exact Or.inr ⟨st.subs, ⟨_, "subscription.activated", none, eid⟩, rfl, rfl⟩
    · exact Or.inr ⟨_, ⟨_, "subscription.activated", none, eid⟩, rfl, rfl⟩

theorem handleSubscriptionCharged_shape (e : Entity) (body : WebhookBody) (eid : String) (st : PayDB) :
    handleSubscriptionCharged e body eid st = st ∨
    ∃ subs2 row, row.razorpayEventId = eid ∧
      handleSubscriptionCharged e body eid st = ⟨subs2, st.events ++ [row]⟩ := by
  unfold handleSubscriptionCharged
  split
  · exact Or.inl rfl
  · exact Or.inr ⟨_, ⟨_, "subscription.charged", _, eid⟩, rfl, rfl⟩

theorem handleSubscriptionCompleted_shape (e : Entity) (eid : String) (st : PayDB) :
    handleSubscriptionCompleted e eid st = st ∨
    ∃ subs2 row, row.razorpayEventId = eid ∧
      handleSubscriptionCompleted e eid st = ⟨subs2, st.events ++ [row]⟩ := by
  unfold handleSubscriptionCompleted
  split
  · exact Or.inl rfl
  · split
    · exact Or.inr ⟨st.subs, ⟨_, "subscription.completed", none, eid⟩, rfl, rfl⟩
    · exact Or.inr ⟨_, ⟨_, "subscription.completed", none, eid⟩, rfl, rfl⟩

theorem handleSubscriptionCancelled_shape (e : Entity) (eid : String) (now : Int) (st : PayDB) :
    handleSubscriptionCancelled e eid now st = st ∨
    ∃ subs2 row, row.razorpayEventId = eid ∧
      handleSubscriptionCancelled e eid now st = ⟨subs2, st.events ++ [row]⟩ := by
  unfold handleSubscriptionCancelled
  split
  · exact Or.inl rfl
  · exact Or.inr ⟨_, ⟨_, "subscription.cancelled", none, eid⟩, rfl, rfl⟩

theorem handleSubscriptionPending_shape (e : Entity) (eid : String) (st : PayDB) :
    handleSubscriptionPending e eid st = st ∨
    ∃ subs2 row, row.razorpayEventId = eid ∧
      handleSubscriptionPending e eid st = ⟨subs2, st.events ++ [row]⟩ := by
  unfold handleSubscriptionPending
  split
  · exact Or.inl rfl
  · split
    · exact Or.inr ⟨st.subs, ⟨_, "subscription.pending", none, eid⟩, rfl, rfl⟩
    · exact Or.inr ⟨_, ⟨_, "subscription.pending", none, eid⟩, rfl, rfl⟩

theorem handleSubscriptionHalted_shape (e : Entity) (eid : String) (st : PayDB) :
    handleSubscriptionHalted e eid st = st ∨
    ∃ subs2 row, row.razorpayEventId = eid ∧
      handleSubscriptionHalted e eid st = ⟨subs2, st.events ++ [row]⟩ := by
  unfold handleSubscriptionHalted
  split
  · exact Or.inl rfl
  · split
    · exact Or.inr ⟨st.subs, ⟨_, "subscription.halted", none, eid⟩, rfl, rfl⟩
    · exact Or.inr ⟨_, ⟨_, "subscription.halted", none, eid⟩, rfl, rfl⟩

theorem handleSubscriptionResumed_shape (e : Entity) (eid : String) (st : PayDB) :
    handleSubscriptionResumed e eid st = st ∨
    ∃ subs2 row, row.razorpayEventId = eid ∧
      handleSubscriptionResumed e eid st = ⟨subs2, st.events ++ [row]⟩ := by
  unfold handleSubscriptionResumed
  split
  · exact Or.inl rfl
  · split
    · exact Or.inr ⟨st.subs, ⟨_, "subscription.resumed", none, eid⟩, rfl, rfl⟩
    · exact Or.inr ⟨_, ⟨_, "subscription.resumed", none, eid⟩, rfl, rfl⟩

theorem handleSubscriptionPaused_shape (e : Entity) (eid : String) (st : PayDB) :
    handleSubscriptionPaused e eid st = st ∨
    ∃ subs2 row, row.razorpayEventId = eid ∧
      handleSubscriptionPaused e eid st = ⟨subs2, st.events ++ [row]⟩ := by
  unfold handleSubscriptionPaused
  split
  · exact Or.inl rfl
  · split
    · exact Or.inr ⟨st.subs, ⟨_, "subscription.paused", none, eid⟩, rfl, rfl⟩
    · exact Or.inr ⟨_, ⟨_, "subscription.paused", none, eid⟩, rfl, rfl⟩

theorem handlePaymentFailed_shape (e : Entity) (eid : String) (st : PayDB) :
    handlePaymentFailed e eid st = st ∨
    ∃ subs2 row, row.razorpayEventId = eid ∧
      handlePaymentFailed e eid st = ⟨subs2, st.events ++ [row]⟩ := by
  unfold handlePaymentFailed
  split
  · exact Or.inl rfl
  · split
    · exact Or.inl rfl
    · exact Or.inr ⟨st.subs, ⟨_, "payment.failed", _, eid⟩, rfl, rfl⟩

theorem handleWebhookEvent_shape (ev : String) (e : Entity) (body : WebhookBody)
    (eid : String) (now : Int) (st : PayDB) :
    handleWebhookEvent ev e body eid now st = st ∨
    ∃ subs2 row, row.razorpayEventId = eid ∧
      handleWebhookEvent ev e body eid now st = ⟨subs2, st.events ++ [row]⟩ := by
  unfold handleWebhookEvent
  split
  · exact handleSubscriptionActivated_shape e eid st
  · split
    · exact handleSubscriptionCharged_shape e body eid st
    · split
      · exact handleSubscriptionCompleted_shape e eid st
      · split
        · exact handleSubscriptionCancelled_shape e eid now st
        · split
          · exact handleSubscriptionPending_shape e eid st
          · split
            · exact handleSubscriptionHalted_shape e eid st
            · split
              · exact handleSubscriptionResumed_shape e eid st
              · split
                · exact handleSubscriptionPaused_shape e eid st
                · split
                  · exact handlePaymentFailed_shape e eid st
                  · exact Or.inr ⟨st.subs, ⟨none, ev, none, eid⟩, rfl, rfl⟩


theorem postWebhook_state_idem (hmacHex : String → String → String) (webhookSecret : String)
    (nowMs now : Int) (st : PayDB) (req : WebhookReq) :
    (postWebhook hmacHex webhookSecret nowMs now
      (postWebhook hmacHex webhookSecret nowMs now st req).2 req).2 =
    (postWebhook hmacHex webhookSecret nowMs now st req).2 := by
  cases hsig : req.signature with
  | none => simp [postWebhook, hsig]
  | some signature =>
    cases hts : timingSafeEq signature (hmacHex webhookSecret req.rawBody) with
    | false => simp [postWebhook, hsig, hts]
    | true =>
      cases hpb : req.parsedBody with
      | none => simp [postWebhook, hsig, hts, hpb]
      | some body =>
        cases hdup : hasEventRow st (eventIdOf body nowMs) with
        | true => simp [postWebhook, hsig, hts, hpb, hdup]
        | false =>
          cases hent : entityOf body with
          | none => simp [postWebhook, hsig, hts, hpb, hdup, hent]
          | some e =>
            cases hrid : entityRid e == "" with
            | true => simp [postWebhook, hsig, hts, hpb, hdup, hent, hrid]
            | false =>
              rcases handleWebhookEvent_shape body.event e body (eventIdOf body nowMs) now st with
                heq | ⟨subs2, row, hrow, heq⟩
              · simp [postWebhook, hsig, hts, hpb, hdup, hent, hrid, heq]
              · have hdup2 : hasEventRow (PayDB.mk subs2 (st.events ++ [row]))
                    (eventIdOf body nowMs) = true := by
                  simp [hasEventRow, hrow]
                simp [postWebhook, hsig, hts, hpb, hdup, hent, hrid, heq, hdup2]


theorem isTerminal_no_valid (s t : SubStatus) (h : isTerminal s = true) :
    isValidTransition s t = false := by
  revert h
  cases s <;> cases t <;> decide

theorem handleSubscriptionActivated_subsChange (e : Entity) (eid : String) (st : PayDB) :
    SubsChange st.subs (handleSubscriptionActivated e eid st).subs := by
  unfold handleSubscriptionActivated
  split
  · exact Or.inl rfl
  · next sub hfind =>
    split
    · exact Or.inl rfl
    · next hvalid =>
      refine Or.inr ⟨sub, _, List.mem_of_find?_eq_some hfind, rfl, fun s => rfl, ?_⟩
      exact Or.inr (Or.inr ⟨.active, by simpa using hvalid, fun s => rfl⟩)

theorem handleSubscriptionCharged_subsChange (e : Entity) (body : WebhookBody)
    (eid : String) (st : PayDB) :
    SubsChange st.subs (handleSubscriptionCharged e body eid st).subs := by
  unfold handleSubscriptionCharged
  split
  · exact Or.inl rfl
  · next sub hfind =>
    refine Or.inr ⟨sub, _, List.mem_of_find?_eq_some hfind, rfl, fun s => rfl, ?_⟩
    exact Or.inl (fun s => rfl)

theorem handleSubscriptionCompleted_subsChange (e : Entity) (eid : String) (st : PayDB) :
    SubsChange st.subs (handleSubscriptionCompleted e eid st).subs := by
  unfold handleSubscriptionCompleted
  split
  · exact Or.inl rfl
  · next sub hfind =>
    split
    · exact Or.inl rfl
    · next hvalid =>
      refine Or.inr ⟨sub, _, List.mem_of_find?_eq_some hfind, rfl, fun s => rfl, ?_⟩
      exact Or.inr (Or.inr ⟨.expired, by simpa using hvalid, fun s => rfl⟩)

theorem handleSubscriptionCancelled_subsChange (e : Entity) (eid : String) (now : Int)
    (st : PayDB) :
    SubsChange st.subs (handleSubscriptionCancelled e eid now st).subs := by
  unfold handleSubscriptionCancelled
  split
  · exact Or.inl rfl
  · next sub hfind =>
    refine Or.inr ⟨sub, _, List.mem_of_find?_eq_some hfind, rfl, fun s => rfl, ?_⟩
    exact Or.inr (Or.inl (fun s => rfl))

theorem handleSubscriptionPending_subsChange (e : Entity) (eid : String) (st : PayDB) :
    SubsChange st.subs (handleSubscriptionPending e eid st).subs := by
  unfold handleSubscriptionPending
  split
  · exact Or.inl rfl
  · next sub hfind =>
    split
    · exact Or.inl rfl
    · next hvalid =>
      refine Or.inr ⟨sub, _, List.mem_of_find?_eq_some hfind, rfl, fun s => rfl, ?_⟩
      exact Or.inr (Or.inr ⟨.past_due, by simpa using hvalid, fun s => rfl⟩)

theorem handleSubscriptionHalted_subsChange (e : Entity) (eid : String) (st : PayDB) :
    SubsChange st.subs (handleSubscriptionHalted e eid st).subs := by
  unfold handleSubscriptionHalted
  split
  · exact Or.inl rfl
  · next sub hfind =>
    split
    · exact Or.inl rfl
    · next hvalid =>
      refine Or.inr ⟨sub, _, List.mem_of_find?_eq_some hfind, rfl, fun s => rfl, ?_⟩
      exact Or.inr (Or.inr ⟨.past_due, by simpa using hvalid, fun s => rfl⟩)

theorem handleSubscriptionResumed_subsChange (e : Entity) (eid : String) (st : PayDB) :
    SubsChange st.subs (handleSubscriptionResumed e eid st).subs := by
  unfold handleSubscriptionResumed
  split
  · exact Or.inl rfl
  · next sub hfind =>
    split
    · exact Or.inl rfl
    · next hvalid =>
      refine Or.inr ⟨sub, _, List.mem_of_find?_eq_some hfind, rfl, fun s => rfl, ?_⟩
      exact Or.inr (Or.inr ⟨.active, by simpa using hvalid, fun s => rfl⟩)

theorem handleSubscriptionPaused_subsChange (e : Entity) (eid : String) (st : PayDB) :
    SubsChange st.subs (handleSubscriptionPaused e eid st).subs := by
  unfold handleSubscriptionPaused
  split
  · exact Or.inl rfl
  · next sub hfind =>
    split
    · exact Or.inl rfl
    · next hvalid =>
      refine Or.inr ⟨sub, _, List.mem_of_find?_eq_some hfind, rfl, fun s => rfl, ?_⟩
      exact Or.inr (Or.inr ⟨.past_due, by simpa using hvalid, fun s => rfl⟩)

theorem handlePaymentFailed_subsChange (e : Entity) (eid : String) (st : PayDB) :
    SubsChange st.subs (handlePaymentFailed e eid st).subs := by
  unfold handlePaymentFailed
  split
  · exact Or.inl rfl
  · split
    · exact Or.inl rfl
    · exact Or.inl rfl

theorem handleWebhookEvent_subsChange (ev : String) (e : Entity) (body : WebhookBody)
    (eid : String) (now : Int) (st : PayDB) :
    SubsChange st.subs (handleWebhookEvent ev e body eid now st).subs := by
  unfold handleWebhookEvent
  split
  · exact handleSubscriptionActivated_subsChange e eid st
  · split
    · exact handleSubscriptionCharged_subsChange e body eid st
    · split
      · exact handleSubscriptionCompleted_subsChange e eid st
      · split
        · exact handleSubscriptionCancelled_subsChange e eid now st
        · split
          · exact handleSubscriptionPending_subsChange e eid st
          · split
            · exact handleSubscriptionHalted_subsChange e eid st
            · split
              · exact handleSubscriptionResumed_subsChange e eid st
              · split
                · exact handleSubscriptionPaused_subsChange e eid st
                · split
                  · exact handlePaymentFailed_subsChange e eid st
                  · exact Or.inl rfl

theorem postWebhook_subsChange (hmacHex : String → String → String) (webhookSecret : String)
    (nowMs now : Int) (st : PayDB) (req : WebhookReq) :
    SubsChange st.subs ((postWebhook hmacHex webhookSecret nowMs now st req).2).subs := by
  cases hsig : req.signature with
  | none => simp [postWebhook, hsig]; exact Or.inl rfl
  | some signature =>
    cases hts : timingSafeEq signature (hmacHex webhookSecret req.rawBody) with
    | false => simp [postWebhook, hsig, hts]; exact Or.inl rfl
    | true =>
      cases hpb : req.parsedBody with
      | none => simp [postWebhook, hsig, hts, hpb]; exact Or.inl rfl
      | some body =>
        cases hdup : hasEventRow st (eventIdOf body nowMs) with
        | true => simp [postWebhook, hsig, hts, hpb, hdup]; exact Or.inl rfl
        | false =>
          cases hent : entityOf body with
          | none => simp [postWebhook, hsig, hts, hpb, hdup, hent]; exact Or.inl rfl
          | some e =>
            cases hrid : entityRid e == "" with
            | true =>
              simp [postWebhook, hsig, hts, hpb, hdup, hent, hrid]
              exact Or.inl rfl
            | false =>
              have hst1 : (postWebhook hmacHex webhookSecret nowMs now st req).2 =
                  handleWebhookEvent body.event e body (eventIdOf body nowMs) now st := by
                simp [postWebhook, hsig, hts, hpb, hdup, hent, hrid]
              rw [hst1]
              exact handleWebhookEvent_subsChange body.event e body (eventIdOf body nowMs) now st


theorem subsChange_length {old new : List Subscription} (h : SubsChange old new) :
    new.length = old.length := by
  rcases h with rfl | ⟨sub, f, _, rfl, _, _⟩
  · rfl
  · simp

theorem subsChange_id {old new : List Subscription} (h : SubsChange old new)
    (i : Nat) (hi : i < old.length) (hi2 : i < new.length) :
    new[i].id = old[i].id := by
  rcases h with rfl | ⟨sub, f, hmem, rfl, hfid, _⟩
  · rfl
  · simp only [List.getElem_map]
    split
    · exact hfid _
    · rfl

theorem eq_of_mem_uniqueIds {old : List Subscription} (huniq : uniqueIds old)
    (i : Nat) (hi : i < old.length) {sub : Subscription} (hmem : sub ∈ old)
    (hid : old[i].id = sub.id) : old[i] = sub := by
  rcases List.mem_iff_getElem.mp hmem with ⟨j, hj, hje⟩
  rcases Nat.lt_trichotomy i j with hij | hij | hij
  · have hne := List.pairwise_iff_getElem.mp huniq i j hi hj hij
    rw [hje] at hne
    exact absurd hid hne
  · subst hij
    exact hje
  · have hne := List.pairwise_iff_getElem.mp huniq j i hj hi hij
    rw [hje] at hne
    exact absurd hid.symm hne

theorem subsChange_terminal {old new : List Subscription}
    (huniq : uniqueIds old) (h : SubsChange old new)
    (i : Nat) (hi : i < old.length) (hi2 : i < new.length)
    (hterm : isTerminal (old[i].status) = true) :
    new[i].status = old[i].status ∨ new[i].status = SubStatus.cancelled := by
  rcases h with rfl | ⟨sub, f, hmem, rfl, hfid, hstat⟩
  · exact Or.inl rfl
  · simp only [List.getElem_map]
    split
    · next hid =>
      rcases hstat with hA | hB | ⟨t, hvalid, hC⟩
      · exact Or.inl (hA _)
      · exact Or.inr (hB _)
      · have heq : old[i] = sub :=
          eq_of_mem_uniqueIds huniq i hi hmem (by simpa using hid)
        rw [heq] at hterm
        rw [isTerminal_no_valid sub.status t hterm] at hvalid
        exact absurd hvalid (by simp)
    · exact Or.inl rfl

theorem uniqueIds_of_subsChange {old new : List Subscription}
    (huniq : uniqueIds old) (h : SubsChange old new) : uniqueIds new := by
  have hlen := subsChange_length h
  rw [uniqueIds, List.pairwise_iff_getElem] at huniq ⊢
  intro i j hi hj hij
  have h1 := subsChange_id h i (by omega) hi
  have h2 := subsChange_id h j (by omega) hj
  rw [h1, h2]
  exact huniq i j (by omega) (by omega) hij


theorem processAll_terminal_aux (hmacHex : String → String → String)
    (webhookSecret : String) (nowMs now : Int) :
    ∀ (reqs : List WebhookReq) (st : PayDB), uniqueIds st.subs →
      ∀ (i : Nat) (hi : i < st.subs.length)
        (hi2 : i < (processAll hmacHex webhookSecret nowMs now st reqs).subs.length),
        isTerminal (st.subs[i].status) = true →
        (processAll hmacHex webhookSecret nowMs now st reqs).subs[i].status =
            st.subs[i].status ∨
        (processAll hmacHex webhookSecret nowMs now st reqs).subs[i].status =
            SubStatus.cancelled := by
  intro reqs
  induction reqs with
  | nil => intro st _ i hi hi2 _; exact Or.inl rfl
  | cons r rs ih =>
    intro st huniq i hi hi2 hterm
    have hch := postWebhook_subsChange hmacHex webhookSecret nowMs now st r
    have hlen := subsChange_length hch
    have hi1 : i < ((postWebhook hmacHex webhookSecret nowMs now st r).2).subs.length := by
      omega
    have hstep := subsChange_terminal huniq hch i hi hi1 hterm
    have huniq1 := uniqueIds_of_subsChange huniq hch
    have hterm1 : isTerminal
        (((postWebhook hmacHex webhookSecret nowMs now st r).2).subs[i].status) = true := by
      rcases hstep with he | he
      · rw [he]; exact hterm
      · rw [he]; rfl
    have hcons : processAll hmacHex webhookSecret nowMs now st (r :: rs) =
        processAll hmacHex webhookSecret nowMs now
          (postWebhook hmacHex webhookSecret nowMs now st r).2 rs := rfl
    have hi2x : i < (processAll hmacHex webhookSecret nowMs now
        (postWebhook hmacHex webhookSecret nowMs now st r).2 rs).subs.length := by
      rw [← hcons]; exact hi2
    have hmain := ih (postWebhook hmacHex webhookSecret nowMs now st r).2 huniq1 i hi1 hi2x hterm1
    rcases hmain with hm | hm
    · rcases hstep with he | he
      · left
        have : (processAll hmacHex webhookSecret nowMs now st (r :: rs)).subs[i] =
            (processAll hmacHex webhookSecret nowMs now
              (postWebhook hmacHex webhookSecret nowMs now st r).2 rs).subs[i] := rfl
        rw [this, hm, he]
      · right
        have : (processAll hmacHex webhookSecret nowMs now st (r :: rs)).subs[i] =
            (processAll hmacHex webhookSecret nowMs now
              (postWebhook hmacHex webhookSecret nowMs now st r).2 rs).subs[i] := rfl
        rw [this, hm, he]
    · right
      have : (processAll hmacHex webhookSecret nowMs now st (r :: rs)).subs[i] =
          (processAll hmacHex webhookSecret nowMs now
            (postWebhook hmacHex webhookSecret nowMs now st r).2 rs).subs[i] := rfl
      rw [this, hm]

theorem timingSafeEq_eq (a b : String) : timingSafeEq a b = (a == b) := by
  unfold timingSafeEq
  split
  · rfl
  · next h =>
    cases hab : a == b
    · rfl
    · exact absurd (congrArg String.length (eq_of_beq hab)) h

theorem hasEventRow_false_of_filter_nil (st : PayDB) (eid : String)
    (h : st.events.filter (fun r => r.razorpayEventId == eid) = []) :
    hasEventRow st eid = false := by
  unfold hasEventRow
  rw [List.any_eq_false]
  intro r hr
  have h2 := List.filter_eq_nil_iff.mp h r hr
  simpa using h2

/-- C1 (amended): webhook processing of the same request twice always leaves
the same end state as processing it once.  If, in addition, the ledger held
no row keyed by the extracted event id beforehand and the first request
inserted one (which happens exactly when its handler reaches an insert — in
particular whenever the referenced subscription row exists), the second
request is answered `already_processed` with no further work and the ledger
holds exactly one row keyed by that event id.  (Without a ledger row from
the first request — e.g. when the subscription id is unknown — the second
request is reprocessed rather than detected as a duplicate.) -/
theorem webhook_idempotent_amended (hmacHex : String → String → String)
    (webhookSecret : String) (nowMs now : Int) (st : PayDB) (req : WebhookReq)
    (body : WebhookBody) (hbody : req.parsedBody = some body)
    (hfresh : st.events.filter (fun r => r.razorpayEventId == eventIdOf body nowMs) = []) :
    (postWebhook hmacHex webhookSecret nowMs now
        (postWebhook hmacHex webhookSecret nowMs now st req).2 req).2 =
      (postWebhook hmacHex webhookSecret nowMs now st req).2 ∧
    (hasEventRow (postWebhook hmacHex webhookSecret nowMs now st req).2
        (eventIdOf body nowMs) = true →
      (postWebhook hmacHex webhookSecret nowMs now
          (postWebhook hmacHex webhookSecret nowMs now st req).2 req).1 =
        ⟨200, "already_processed"⟩ ∧
      (((postWebhook hmacHex webhookSecret nowMs now st req).2).events.filter
          (fun r => r.razorpayEventId == eventIdOf body nowMs)).length = 1) := by
  have hdup0 : hasEventRow st (eventIdOf body nowMs) = false :=
    hasEventRow_false_of_filter_nil st _ hfresh
  refine ⟨postWebhook_state_idem hmacHex webhookSecret nowMs now st req, ?_⟩
  intro hrow1
  cases hsig : req.signature with
  | none =>
    rw [show (postWebhook hmacHex webhookSecret nowMs now st req).2 = st by
      simp [postWebhook, hsig]] at hrow1
    rw [hrow1] at hdup0
    exact absurd hdup0 (by simp)
  | some signature =>
    cases hts : timingSafeEq signature (hmacHex webhookSecret req.rawBody) with
    | false =>
      rw [show (postWebhook hmacHex webhookSecret nowMs now st req).2 = st by
        simp [postWebhook, hsig, hts]] at hrow1
      rw [hrow1] at hdup0
      exact absurd hdup0 (by simp)
    | true =>
      cases hent : entityOf body with
      | none =>
        rw [show (postWebhook hmacHex webhookSecret nowMs now st req).2 = st by
          simp [postWebhook, hsig, hts, hbody, hdup0, hent]] at hrow1
        rw [hrow1] at hdup0
        exact absurd hdup0 (by simp)
      | some e =>
        cases hrid : entityRid e == "" with
        | true =>
          rw [show (postWebhook hmacHex webhookSecret nowMs now st req).2 = st by
            simp [postWebhook, hsig, hts, hbody, hdup0, hent, hrid]] at hrow1
          rw [hrow1] at hdup0
          exact absurd hdup0 (by simp)
        | false =>
          have hst1 : (postWebhook hmacHex webhookSecret nowMs now st req).2 =
              handleWebhookEvent body.event e body (eventIdOf body nowMs) now st := by
            simp [postWebhook, hsig, hts, hbody, hdup0, hent, hrid]
          rcases handleWebhookEvent_shape body.event e body (eventIdOf body nowMs) now st with
            heq | ⟨subs2, row, hrowid, heq⟩
          · rw [hst1, heq] at hrow1
            rw [hrow1] at hdup0
            exact absurd hdup0 (by simp)
          · have hdup2 : hasEventRow (PayDB.mk subs2 (st.events ++ [row]))
                (eventIdOf body nowMs) = true := by
              simp [hasEventRow, hrowid]
            constructor
            · rw [hst1, heq]
              simp [postWebhook, hsig, hts, hbody, hdup2]
            · rw [hst1, heq]
              simp only [List.filter_append, hfresh, List.nil_append]
              simp [List.filter, hrowid]

deriving instance DecidableEq for JsVal

theorem charLower_idem (c : Char) : charLower (charLower c) = charLower c := by
  unfold charLower
  split
  · next h =>
    have hv : (c.toNat + 32).isValidChar := by
      constructor
      omega
    have ht : (Char.ofNat (c.toNat + 32)).toNat = c.toNat + 32 := by
      simp [Char.ofNat, hv]
      rfl
    rw [if_neg]
    rw [ht]
    omega
  · rfl

theorem lowerStr_idem (s : String) : lowerStr (lowerStr s) = lowerStr s := by
  unfold lowerStr
  cases s with
  | mk data =>
    simp [List.map_map]
    congr 1
    apply List.map_congr_left
    intro c _
    exact charLower_idem c

theorem removeFirstList_of_not_contains (pat : List Char) (s : List Char)
    (h : listContainsSub pat s = false) : removeFirstList pat s = s := by
  induction s with
  | nil => rfl
  | cons c t ih =>
    unfold listContainsSub at h
    rw [Bool.or_eq_false_iff] at h
    have hc : (!pat.isEmpty && pat.isPrefixOf (c :: t)) = false := by
      simp [h.1]
    unfold removeFirstList
    simp [hc, ih h.2]

theorem jsReplaceEmpty_of_not_contains (s pat : String)
    (h : strContains s pat = false) : jsReplaceEmpty s pat = s := by
  cases s with
  | mk data => exact congrArg String.mk (removeFirstList_of_not_contains pat.data data h)

mutual
theorem redactVal_ok : ∀ v : JsVal, fullyRedacted (redactSecrets v) = true
  | .undefined => rfl
  | .null => rfl
  | .str _ => rfl
  | .num _ => rfl
  | .bool _ => rfl
  | .arr xs => by simp [redactSecrets, fullyRedacted]; exact redactArr_ok xs
  | .obj fs => by simp [redactSecrets, fullyRedacted]; exact redactObj_ok fs

theorem redactArr_ok : ∀ xs : JsArr, fullyRedactedArr (redactArr xs) = true
  | .nil => rfl
  | .cons hd tl => by
    simp [redactArr, fullyRedactedArr]
    exact ⟨redactVal_ok hd, redactArr_ok tl⟩

theorem redactObj_ok : ∀ fs : JsObj, fullyRedactedObj (redactObj fs) = true
  | .nil => rfl
  | .cons key val tl => by
    unfold redactObj
    split
    · next hsec =>
      simp [fullyRedactedObj, hsec, isSentinel]
      exact redactObj_ok tl
    · next hsec =>
      cases val with
      | arr xs =>
        simp [fullyRedactedObj, hsec, fullyRedacted]
        constructor
        · exact redactArr_ok xs
        · exact redactObj_ok tl
      | obj fs2 =>
        simp [fullyRedactedObj, hsec, fullyRedacted]
        constructor
        · exact redactObj_ok fs2
        · exact redactObj_ok tl
      | undefined => simp [fullyRedactedObj, hsec, fullyRedacted]; exact redactObj_ok tl
      | null => simp [fullyRedactedObj, hsec, fullyRedacted]; exact redactObj_ok tl
      | str s => simp [fullyRedactedObj, hsec, fullyRedacted]; exact redactObj_ok tl
      | num n => simp [fullyRedactedObj, hsec, fullyRedacted]; exact redactObj_ok tl
      | bool b => simp [fullyRedactedObj, hsec, fullyRedacted]; exact redactObj_ok tl
end

/-- C10: in the container engine adapter, `startContainer` and
`stopContainer` succeed when the engine answers 304 (already in the
requested state) but fail with the error message of a missing container when
it answers 404, while `removeContainer` alone treats 404 as success. -/
theorem container_adapter_engine_status_mapping :
    (∀ startResult : DaemonResult,
      startContainer (.error 404) startResult = .error "Container not found") ∧
    startContainer (.ok ()) (.error 404) = .error "Container not found" ∧
    startContainer (.ok ()) (.error 304) = .ok true ∧
    stopContainer (.error 304) = .ok true ∧
    stopContainer (.error 404) = .error "Container not found" ∧
    removeContainer (.error 404) = .ok true :=
  ⟨fun _ => rfl, rfl, rfl, rfl, rfl, rfl⟩

/-- C6: the `GET /api/payments/subscription` handler can never answer 404 and
never carries the subscription state: `subscriptionModel.findByUserId`
returns an array of rows, the emptiness check `if (!subscription)` is false
for every array, and every named property read on the array yields
`undefined`.  This contradicts the documented contract of the route
(`Output: Subscription object or 404`). -/
theorem payments_subscription_route_bug :
    ∀ (subs : List Subscription) (userId : String) (now : Int),
      (getSubscriptionRoute subs userId now).httpStatus = 200 ∧
      jsGetProp (getSubscriptionRoute subs userId now).body "status" = JsVal.undefined ∧
      jsGetProp (getSubscriptionRoute subs userId now).body "is_active" =
        JsVal.bool false := by
  intro subs userId now
  simp [getSubscriptionRoute, findByUserIdJs, jsTruthy, jsGetProp, objLookup, jsStrictEqStr]

/-- C4: the reverse proxy strips the per-workspace credential header before
forwarding: no header of the forwarded request has lowercased name
`x-api-key`, every other client header survives (keyed by its lowercased
name, as Node stores it), and the body is forwarded unchanged. -/
theorem proxy_strips_credential_header (clientHeaders : List (String × String))
    (body : String) :
    (∀ p ∈ (forwardedRequest clientHeaders body).headers, lowerStr p.1 ≠ "x-api-key") ∧
    (∀ n v, (n, v) ∈ clientHeaders → lowerStr n ≠ "x-api-key" →
      (lowerStr n, v) ∈ (forwardedRequest clientHeaders body).headers) ∧
    (forwardedRequest clientHeaders body).body = body := by
  refine ⟨?_, ?_, rfl⟩
  · intro p hp
    unfold forwardedRequest proxyReqOptDecorator nodeHeaders at hp
    simp only [List.mem_filter, List.mem_map] at hp
    rcases hp with ⟨⟨q, hq, hpq⟩, hne⟩
    rw [← hpq]
    simp only [lowerStr_idem]
    rw [← hpq] at hne
    simpa using hne
  · intro n v hmem hne
    unfold forwardedRequest proxyReqOptDecorator nodeHeaders
    simp only [List.mem_filter, List.mem_map]
    refine ⟨⟨(n, v), hmem, rfl⟩, by simpa using hne⟩

/-- C8 counterexample: the configured blacklist of `utils/logger.js` has no
entry matching the key `webhook signature` (nor `api key`): a record with
that key passes through `redactSecrets` unredacted, so a value survives
under a key the claim lists as blacklisted. -/
theorem redact_claimed_blacklist_counterexample :
    isSecretKey "webhook signature" = false ∧
    isSecretKey "api key" = false ∧
    jsGetProp (redactSecrets (.obj (.cons "webhook signature" (.str "abc") .nil)))
      "webhook signature" = JsVal.str "abc" ∧
    JsVal.str "abc" ≠ JsVal.str "[REDACTED]" := by
  refine ⟨by decide, by decide, rfl, by decide⟩

/-- C8 (amended): with the blacklist actually configured in
`utils/logger.js` (`SECRET_FIELDS`: password, password_hash, api_key,
apiKey, apikey, authorization, token, jwt, secret, x-api-key,
razorpay_key_secret, RAZORPAY_KEY_SECRET, JWT_SECRET — there is no entry
matching "api key" or "webhook signature"), every key at any nesting depth
whose lowercased name contains one of the blacklisted substrings has its
value replaced by the sentinel, so the emitted record carries no value under
a blacklisted key name. -/
theorem redactSecrets_blacklist_complete :
    ∀ v : JsVal, fullyRedacted (redactSecrets v) = true :=
  redactVal_ok


/-- C3: a webhook request whose signature header is absent, or unequal to
the hex HMAC-SHA256 of the raw request body under the configured secret, is
answered 401 and leaves the database untouched; the comparison the handler
uses is the `timingSafeEqual` wrapper, which decides exactly string
equality. -/
theorem webhook_bad_signature_rejected (hmacHex : String → String → String)
    (webhookSecret : String) (nowMs now : Int) (st : PayDB) (req : WebhookReq)
    (h : req.signature = none ∨
      ∀ sig, req.signature = some sig → sig ≠ hmacHex webhookSecret req.rawBody) :
    (postWebhook hmacHex webhookSecret nowMs now st req).1.status = 401 ∧
    (postWebhook hmacHex webhookSecret nowMs now st req).2 = st ∧
    (∀ a b : String, timingSafeEq a b = (a == b)) := by
  refine ⟨?_, ?_, timingSafeEq_eq⟩ <;>
  · cases hsig : req.signature with
    | none => simp [postWebhook, hsig]
    | some signature =>
      have hne : signature ≠ hmacHex webhookSecret req.rawBody := by
        rcases h with h0 | h1
        · rw [hsig] at h0; exact absurd h0 (by simp)
        · exact h1 signature hsig
      have hts : timingSafeEq signature (hmacHex webhookSecret req.rawBody) = false := by
        rw [timingSafeEq_eq]
        exact beq_eq_false_iff_ne.mpr hne
      simp [postWebhook, hsig, hts]

theorem webhook_bad_signature_rejected_witness :
    (postWebhook (fun s b => s ++ b) "k" 0 0 ⟨[], []⟩
      ⟨some "bad", "body", none⟩).1.status = 401 ∧
    (postWebhook (fun s b => s ++ b) "k" 0 0 ⟨[], []⟩
      ⟨some "bad", "body", none⟩).2 = ⟨[], []⟩ ∧
    (∀ a b : String, timingSafeEq a b = (a == b)) :=
  webhook_bad_signature_rejected (fun s b => s ++ b) "k" 0 0 ⟨[], []⟩
    ⟨some "bad", "body", none⟩
    (Or.inr (fun sig hs => by
      injection hs with h2
      rw [← h2]
      decide))

/-- C1 counterexample: two identical, validly signed `subscription.activated`
requests for a provider subscription id that has no row in the database.
Both are answered success, but the second is not detected as a duplicate
(its tag is "success", not "already_processed") and afterwards the ledger
contains zero — not exactly one — rows keyed by the extracted event id. -/
theorem webhook_duplicate_detection_counterexample :
    (postWebhook (fun _ _ => "sig") "sec" 0 0
        (postWebhook (fun _ _ => "sig") "sec" 0 0 ⟨[], []⟩
          ⟨some "sig", "raw",
            some ⟨"subscription.activated", some ⟨"sub_x", none, 1, 2⟩, none⟩⟩).2
        ⟨some "sig", "raw",
          some ⟨"subscription.activated", some ⟨"sub_x", none, 1, 2⟩, none⟩⟩).1.tag =
      "success" ∧
    ((postWebhook (fun _ _ => "sig") "sec" 0 0
        (postWebhook (fun _ _ => "sig") "sec" 0 0 ⟨[], []⟩
          ⟨some "sig", "raw",
            some ⟨"subscription.activated", some ⟨"sub_x", none, 1, 2⟩, none⟩⟩).2
        ⟨some "sig", "raw",
          some ⟨"subscription.activated", some ⟨"sub_x", none, 1, 2⟩, none⟩⟩).2.events.filter
        (fun r => r.razorpayEventId == "sub_x")).length = 0 := by
  constructor
  · rfl
  · rfl

theorem webhook_idempotent_amended_witness :
    (postWebhook (fun _ _ => "s") "k" 0 0
        (postWebhook (fun _ _ => "s") "k" 0 0
          ⟨[⟨1, "sub_1", "u1", "plan", .pending, 0, 0, none⟩], []⟩
          ⟨some "s", "raw",
            some ⟨"subscription.activated", some ⟨"sub_1", none, 1, 2⟩, none⟩⟩).2
        ⟨some "s", "raw",
          some ⟨"subscription.activated", some ⟨"sub_1", none, 1, 2⟩, none⟩⟩).2 =
      (postWebhook (fun _ _ => "s") "k" 0 0
        ⟨[⟨1, "sub_1", "u1", "plan", .pending, 0, 0, none⟩], []⟩
        ⟨some "s", "raw",
          some ⟨"subscription.activated", some ⟨"sub_1", none, 1, 2⟩, none⟩⟩).2 ∧
    (postWebhook (fun _ _ => "s") "k" 0 0
        (postWebhook (fun _ _ => "s") "k" 0 0
          ⟨[⟨1, "sub_1", "u1", "plan", .pending, 0, 0, none⟩], []⟩
          ⟨some "s", "raw",
            some ⟨"subscription.activated", some ⟨"sub_1", none, 1, 2⟩, none⟩⟩).2
        ⟨some "s", "raw",
          some ⟨"subscription.activated", some ⟨"sub_1", none, 1, 2⟩, none⟩⟩).1 =
      ⟨200, "already_processed"⟩ ∧
    ((postWebhook (fun _ _ => "s") "k" 0 0
        ⟨[⟨1, "sub_1", "u1", "plan", .pending, 0, 0, none⟩], []⟩
        ⟨some "s", "raw",
          some ⟨"subscription.activated", some ⟨"sub_1", none, 1, 2⟩, none⟩⟩).2.events.filter
        (fun r => r.razorpayEventId == "sub_1")).length = 1 := by
  have h := webhook_idempotent_amended (fun _ _ => "s") "k" 0 0
    ⟨[⟨1, "sub_1", "u1", "plan", .pending, 0, 0, none⟩], []⟩
    ⟨some "s", "raw",
      some ⟨"subscription.activated", some ⟨"sub_1", none, 1, 2⟩, none⟩⟩
    ⟨"subscription.activated", some ⟨"sub_1", none, 1, 2⟩, none⟩ rfl (by decide)
  exact ⟨h.1, (h.2 (by decide)).1, (h.2 (by decide)).2⟩


/-- C5: no container is created or started without entitlement.  If the
caller has no subscription row with status active and period end in the
future at the moment of the check, both `POST /api/workspaces/:id/start` and
`POST /api/workspaces` answer 403 with no database change and no engine
call; conversely any run of the start route that issued an engine call, and
any run of the create route that changed the database, had the entitlement
check succeed. -/
theorem entitlement_gates_container_operations (eng : EngineOracle) (now : Int)
    (db : AppDB) (userId workspaceId name : String) (maxWorkspaces : Nat)
    (newId newApiKey : String) :
    (hasActive db userId now = false →
      (processStart eng now db userId workspaceId).1.status = 403 ∧
      (processStart eng now db userId workspaceId).2.1 = db ∧
      (processStart eng now db userId workspaceId).2.2 = [] ∧
      (processCreate now db userId name maxWorkspaces newId newApiKey).1.status = 403 ∧
      (processCreate now db userId name maxWorkspaces newId newApiKey).2 = db) ∧
    ((processStart eng now db userId workspaceId).2.2 ≠ [] →
      hasActive db userId now = true) ∧
    ((processCreate now db userId name maxWorkspaces newId newApiKey).2 ≠ db →
      hasActive db userId now = true) := by
  constructor
  · intro hno
    have hstart1 : (processStart eng now db userId workspaceId).1.status = 403 ∧
        (processStart eng now db userId workspaceId).2.1 = db ∧
        (processStart eng now db userId workspaceId).2.2 = [] := by
      unfold processStart
      cases ho : isOwner db workspaceId userId with
      | false => simp [ho]
      | true => simp [ho, hno]
    have hcreate1 : (processCreate now db userId name maxWorkspaces newId newApiKey).1.status =
        403 ∧ (processCreate now db userId name maxWorkspaces newId newApiKey).2 = db := by
      unfold processCreate
      simp [hno]
    exact ⟨hstart1.1, hstart1.2.1, hstart1.2.2, hcreate1.1, hcreate1.2⟩
  · constructor
    · intro hops
      cases hact : hasActive db userId now with
      | true => rfl
      | false =>
        exfalso
        apply hops
        unfold processStart
        cases ho : isOwner db workspaceId userId with
        | false => simp [ho]
        | true => simp [ho, hact]
    · intro hdb
      cases hact : hasActive db userId now with
      | true => rfl
      | false =>
        exfalso
        apply hdb
        unfold processCreate
        simp [hact]

theorem entitlement_gates_container_operations_witness :
    (processStart ⟨fun _ => .ok "c", fun _ => .ok true, fun _ => .ok true⟩ 0
        ⟨[], []⟩ "u" "w1").1.status = 403 ∧
    (processStart ⟨fun _ => .ok "c", fun _ => .ok true, fun _ => .ok true⟩ 0
        ⟨[], []⟩ "u" "w1").2.2 = [] ∧
    (processCreate 0 ⟨[], []⟩ "u" "ws" 3 "id" "key").1.status = 403 := by
  have h := entitlement_gates_container_operations
    ⟨fun _ => .ok "c", fun _ => .ok true, fun _ => .ok true⟩ 0 ⟨[], []⟩ "u" "w1" "ws" 3
    "id" "key"
  have h1 := h.1 (by decide)
  exact ⟨h1.1, h1.2.2.1, h1.2.2.2.1⟩

/-- C7 counterexample: an owned, entitled workspace in runtime state
`stopped` whose container was never created (no engine handle) is answered
400 "Workspace has no container to stop" by the stop route, not success. -/
theorem stop_without_handle_counterexample :
    (processStop ⟨fun _ => .ok "c", fun _ => .ok true, fun _ => .ok true⟩ 0
        ⟨[⟨1, "sub_1", "u", "p", .active, 0, 5, none⟩],
         [⟨"w1", "u", "ws", "key", none, .stopped, none⟩]⟩
        "u" "w1").1 = ⟨400, "Workspace has no container to stop"⟩ ∧
    (400 : Nat) ≠ 200 := by
  exact ⟨rfl, by decide⟩

/-- C7 (amended): for an owned, entitled workspace in state `stopped`, the
stop route leaves the record and the engine untouched; it answers success
("already stopped") when an engine handle exists, but a stopped workspace
with no engine handle is answered 400 "Workspace has no container to stop"
(the handle check precedes the already-stopped check). -/
theorem stop_idempotent_amended (eng : EngineOracle) (now : Int) (db : AppDB)
    (userId workspaceId : String) (w : Workspace)
    (hown : isOwner db workspaceId userId = true)
    (hact : hasActive db userId now = true)
    (hfind : findWorkspaceById db workspaceId = some w)
    (hstopped : w.containerStatus = .stopped) :
    (processStop eng now db userId workspaceId).2.1 = db ∧
    (processStop eng now db userId workspaceId).2.2 = [] ∧
    (∀ cid, w.containerId = some cid →
      (processStop eng now db userId workspaceId).1 = ⟨200, "Workspace already stopped"⟩) ∧
    (w.containerId = none →
      (processStop eng now db userId workspaceId).1 =
        ⟨400, "Workspace has no container to stop"⟩) := by
  cases hcid : w.containerId with
  | none =>
    have hr : processStop eng now db userId workspaceId =
        (⟨400, "Workspace has no container to stop"⟩, db, []) := by
      unfold processStop
      rw [hown, hact, hfind]
      simp [hcid]
    rw [hr]
    refine ⟨rfl, rfl, ?_, fun _ => rfl⟩
    intro cid hc
    exact Option.noConfusion hc
  | some cid0 =>
    have hr : processStop eng now db userId workspaceId =
        (⟨200, "Workspace already stopped"⟩, db, []) := by
      unfold processStop
      rw [hown, hact, hfind]
      simp [hcid, hstopped]
    rw [hr]
    refine ⟨rfl, rfl, fun _ _ => rfl, ?_⟩
    intro hc
    exact Option.noConfusion hc

theorem stop_idempotent_amended_witness :
    (processStop ⟨fun _ => .ok "c", fun _ => .ok true, fun _ => .ok true⟩ 0
        ⟨[⟨1, "sub_1", "u", "p", .active, 0, 5, none⟩],
         [⟨"w1", "u", "ws", "key", some "c1", .stopped, none⟩]⟩
        "u" "w1").2.1 =
      ⟨[⟨1, "sub_1", "u", "p", .active, 0, 5, none⟩],
       [⟨"w1", "u", "ws", "key", some "c1", .stopped, none⟩]⟩ ∧
    (processStop ⟨fun _ => .ok "c", fun _ => .ok true, fun _ => .ok true⟩ 0
        ⟨[⟨1, "sub_1", "u", "p", .active, 0, 5, none⟩],
         [⟨"w1", "u", "ws", "key", some "c1", .stopped, none⟩]⟩
        "u" "w1").2.2 = [] ∧
    (processStop ⟨fun _ => .ok "c", fun _ => .ok true, fun _ => .ok true⟩ 0
        ⟨[⟨1, "sub_1", "u", "p", .active, 0, 5, none⟩],
         [⟨"w1", "u", "ws", "key", some "c1", .stopped, none⟩]⟩
        "u" "w1").1 = ⟨200, "Workspace already stopped"⟩ := by
  have h := stop_idempotent_amended
    ⟨fun _ => .ok "c", fun _ => .ok true, fun _ => .ok true⟩ 0
    ⟨[⟨1, "sub_1", "u", "p", .active, 0, 5, none⟩],
     [⟨"w1", "u", "ws", "key", some "c1", .stopped, none⟩]⟩
    "u" "w1" ⟨"w1", "u", "ws", "key", some "c1", .stopped, none⟩
    (by decide) (by decide) (by decide) rfl
  exact ⟨h.1, h.2.1, h.2.2.1 "c1" rfl⟩


/-- C2 counterexample: a subscription in the terminal state `expired`
receiving a validly signed `subscription.cancelled` webhook has its state
changed to `cancelled` — the handler performs no transition check — so the
state is not unchanged as claimed (though it remains terminal). -/
theorem terminal_state_unchanged_counterexample :
    ((postWebhook (fun _ _ => "s") "k" 0 0
        ⟨[⟨1, "sub_1", "u", "p", .expired, 0, 0, none⟩], []⟩
        ⟨some "s", "raw",
          some ⟨"subscription.cancelled", some ⟨"sub_1", none, 1, 2⟩, none⟩⟩).2.subs.map
      (fun s => s.status)) = [SubStatus.cancelled] ∧
    SubStatus.cancelled ≠ SubStatus.expired := by
  exact ⟨rfl, by decide⟩

/-- C2 (amended): assuming the primary-key uniqueness of subscription ids,
a subscription whose state is terminal (cancelled or expired) never leaves
the terminal states under any sequence of webhook events in any order:
afterwards its state is either exactly the old terminal state or
`cancelled` (the latter only through a `subscription.cancelled` event), and
in particular still terminal. -/
theorem terminal_states_sticky_amended (hmacHex : String → String → String)
    (webhookSecret : String) (nowMs now : Int) (reqs : List WebhookReq) (st : PayDB)
    (i : Nat) (hi : i < st.subs.length)
    (hi2 : i < (processAll hmacHex webhookSecret nowMs now st reqs).subs.length)
    (huniq : uniqueIds st.subs)
    (hterm : isTerminal (st.subs[i].status) = true) :
    ((processAll hmacHex webhookSecret nowMs now st reqs).subs[i].status =
        st.subs[i].status ∨
      (processAll hmacHex webhookSecret nowMs now st reqs).subs[i].status =
        SubStatus.cancelled) ∧
    isTerminal ((processAll hmacHex webhookSecret nowMs now st reqs).subs[i].status) =
      true := by
  have h := processAll_terminal_aux hmacHex webhookSecret nowMs now reqs st huniq i hi hi2 hterm
  refine ⟨h, ?_⟩
  rcases h with he | he
  · rw [he]; exact hterm
  · rw [he]; rfl

theorem terminal_states_sticky_amended_witness :
    (((processAll (fun _ _ => "s") "k" 0 0
        ⟨[⟨1, "sub_1", "u", "p", .expired, 0, 0, none⟩], []⟩
        [⟨some "s", "raw",
          some ⟨"subscription.cancelled", some ⟨"sub_1", none, 1, 2⟩, none⟩⟩]).subs.get
        ⟨0, by decide⟩).status = SubStatus.expired ∨
      ((processAll (fun _ _ => "s") "k" 0 0
        ⟨[⟨1, "sub_1", "u", "p", .expired, 0, 0, none⟩], []⟩
        [⟨some "s", "raw",
          some ⟨"subscription.cancelled", some ⟨"sub_1", none, 1, 2⟩, none⟩⟩]).subs.get
        ⟨0, by decide⟩).status = SubStatus.cancelled) ∧
    isTerminal (((processAll (fun _ _ => "s") "k" 0 0
        ⟨[⟨1, "sub_1", "u", "p", .expired, 0, 0, none⟩], []⟩
        [⟨some "s", "raw",
          some ⟨"subscription.cancelled", some ⟨"sub_1", none, 1, 2⟩, none⟩⟩]).subs.get
        ⟨0, by decide⟩).status) = true := by
  have h := terminal_states_sticky_amended (fun _ _ => "s") "k" 0 0
    [⟨some "s", "raw",
      some ⟨"subscription.cancelled", some ⟨"sub_1", none, 1, 2⟩, none⟩⟩]
    ⟨[⟨1, "sub_1", "u", "p", .expired, 0, 0, none⟩], []⟩
    0 (by decide) (by decide) (by simp) (by decide)
  exact ⟨h.1, h.2⟩

/-- C9 counterexample: the path rewrite of the proxy uses JS `String.replace`,
which removes the first occurrence of `/api/proxy/{credential-workspace-id}`
anywhere in the URL.  With credential workspace `w1` and original URL
`/api/proxy/zzzz/api/proxy/w1/x` — whose path segment `zzzz` differs from
`w1` — the forwarded path is `/api/proxy/zzzz/x`, not the original path
unmodified as claimed. -/
theorem proxy_path_rewrite_counterexample :
    proxyDispatch
        ⟨[⟨1, "sub_1", "u", "p", .active, 0, 5, none⟩],
         [⟨"w1", "u", "ws", "key", some "c1", .running, none⟩]⟩
        (fun _ => some "10.0.0.9") "8080" 0 (some "key")
        "/api/proxy/zzzz/api/proxy/w1/x" =
      .ok ("http://10.0.0.9:8080", "/api/proxy/zzzz/x") ∧
    "/api/proxy/zzzz/x" ≠ "/api/proxy/zzzz/api/proxy/w1/x" := by
  exact ⟨rfl, by decide⟩

/-- C9 (amended): every successfully forwarded proxy request is routed
solely by the presented credential: the upstream target is the container of
the workspace owning the X-API-Key value, whatever the URL, and any URL
dispatches to that same target.  The path is rewritten by removing the first
occurrence of `/api/proxy/{credential-workspace-id}`; when that string does
not occur in the URL at all (in particular when the path segment names a
different workspace and the rest of the URL avoids the substring), the
request is forwarded with its original path unmodified. -/
theorem proxy_routes_by_credential_amended (db : AppDB)
    (containerIp : String → Option String) (port : String) (now : Int)
    (key originalUrl t p : String)
    (h : proxyDispatch db containerIp port now (some key) originalUrl = .ok (t, p)) :
    ∃ w cid addr, findByApiKey db key = some w ∧ w.containerId = some cid ∧
      containerIp cid = some addr ∧ t = "http://" ++ addr ++ ":" ++ port ∧
      (∀ url2, proxyDispatch db containerIp port now (some key) url2 =
        .ok (t, proxyReqPathResolver w.id url2)) ∧
      (strContains originalUrl ("/api/proxy/" ++ w.id) = false → originalUrl ≠ "" →
        p = originalUrl) := by
  simp only [proxyDispatch] at h
  split at h
  · exact absurd h (by simp)
  · next w hfind =>
    split at h
    · exact absurd h (by simp)
    · next hact =>
      split at h
      · exact absurd h (by simp)
      · next hrun =>
        split at h
        · exact absurd h (by simp)
        · next cid hcid =>
          split at h
          · exact absurd h (by simp)
          · next addr hip =>
            simp only [Except.ok.injEq, Prod.mk.injEq] at h
            refine ⟨w, cid, addr, hfind, hcid, hip, h.1.symm, ?_, ?_⟩
            · intro url2
              simp only [proxyDispatch, hfind, hcid, hip, if_neg hact, if_neg hrun, h.1]
            · intro hnc hne
              rw [← h.2]
              unfold proxyReqPathResolver
              rw [jsReplaceEmpty_of_not_contains _ _ hnc]
              rw [if_neg (by simpa using hne)]

theorem proxy_routes_by_credential_amended_witness :
    ∃ w cid addr,
      findByApiKey
          ⟨[⟨1, "sub_1", "u", "p", .active, 0, 5, none⟩],
           [⟨"w1", "u", "ws", "key", some "c1", .running, none⟩]⟩ "key" = some w ∧
      w.containerId = some cid ∧
      (fun _ : String => some "10.0.0.9") cid = some addr ∧
      "http://10.0.0.9:8080" = "http://" ++ addr ++ ":" ++ "8080" ∧
      (∀ url2, proxyDispatch
          ⟨[⟨1, "sub_1", "u", "p", .active, 0, 5, none⟩],
           [⟨"w1", "u", "ws", "key", some "c1", .running, none⟩]⟩
          (fun _ : String => some "10.0.0.9") "8080" 0 (some "key") url2 =
        .ok ("http://10.0.0.9:8080", proxyReqPathResolver w.id url2)) ∧
      (strContains "/api/proxy/other/x" ("/api/proxy/" ++ w.id) = false →
        "/api/proxy/other/x" ≠ "" → "/api/proxy/other/x" = "/api/proxy/other/x") :=
  proxy_routes_by_credential_amended
    ⟨[⟨1, "sub_1", "u", "p", .active, 0, 5, none⟩],
     [⟨"w1", "u", "ws", "key", some "c1", .running, none⟩]⟩
    (fun _ : String => some "10.0.0.9") "8080" 0 "key" "/api/proxy/other/x"
    "http://10.0.0.9:8080" "/api/proxy/other/x" rfl

theorem proxy_strips_credential_header_witness :
    ("host", "h") ∈ (forwardedRequest [("X-API-Key", "s1"), ("Host", "h")] "b").headers ∧
    (forwardedRequest [("X-API-Key", "s1"), ("Host", "h")] "b").body = "b" := by
  refine ⟨?_, (proxy_strips_credential_header [("X-API-Key", "s1"), ("Host", "h")] "b").2.2⟩
  have h := (proxy_strips_credential_header [("X-API-Key", "s1"), ("Host", "h")] "b").2.1
    "Host" "h" (by simp) (by decide)
  simpa using h

end OpenClaw
